import Mathlib

/-!
Shallow embedding of the profitlife Telegram signal bot
(`telegram_bot_improved.py`, configuration from `config.py`).

Modelling conventions:
* Timestamps are `Nat` seconds; `datetime.now()` is passed in as a `now`
  parameter; `timedelta(hours = h)` is `h * secondsPerHour`.
* The SQLite tables are lists of records.  `INSERT OR REPLACE` deletes the
  conflicting row (same primary key) and inserts a fresh one, with schema
  defaults for columns absent from the column list.
* The external transport (`context.bot`) is modelled by explicit parameters:
  a `MemberQuery` outcome for `get_chat_member`, and a success predicate
  `sendOk : Int → Bool` for `send_message`.  Message bodies sent to
  recipients are elided from the effect traces (only recipient identities and
  counts are observable in the properties below); audit rows store the raw
  admin text exactly as `save_signal` is called with `update.message.text`.
* `secrets.token_urlsafe(32)` is modelled as an oracle: the sampled token is
  an explicit argument of `generate_invite_link`.
-/

namespace ProfitLife

/-- Platform chat-member roles (`telegram.ChatMemberStatus`). -/
inductive ChatRole
  | member
  | administrator
  | owner
  | left
  | kicked
  | restricted
  deriving Repr, DecidableEq

/-- The role set counted as channel membership in `check_channel_membership`
(telegram_bot_improved.py:298) and `chat_member_handler` (868-869). -/
def roleIsMember : ChatRole → Bool
  | .member => true
  | .administrator => true
  | .owner => true
  | _ => false

/-- Configuration surface used by the embedded code (`config.py`). -/
structure Config where
  adminUserIds : List Int
  signalChannelId : String
  channelUsername : String
  inviteLinkExpiryHours : Nat
  maxUsersPerPage : Nat
  deriving Repr, DecidableEq

/-- The defaults of `config.py` (lines 14-27). -/
def defaultConfig : Config :=
  { adminUserIds := [123456789]
    signalChannelId := "YOUR_SIGNAL_CHANNEL_ID_HERE"
    channelUsername := "YOUR_CHANNEL_USERNAME"
    inviteLinkExpiryHours := 24
    maxUsersPerPage := 10 }

/-- A row of the `users` table (init_database, telegram_bot_improved.py:61-75).
`is_active` has schema default 1 and `channel_member` schema default 0. -/
structure UserRecord where
  user_id : Int
  username : String
  first_name : String
  last_name : String
  phone_number : String
  name : String
  product_access : String
  registration_date : Nat
  is_active : Bool
  channel_member : Bool
  last_activity : Option Nat
  deriving Repr, DecidableEq

/-- A row of the `invite_links` table (`link_id` is the primary key). -/
structure InviteRecord where
  link_id : String
  user_id : Int
  created_date : Nat
  expiry_date : Nat
  used : Bool
  used_date : Option Nat
  deriving Repr, DecidableEq

/-- A row of the `signals` audit table. -/
structure SignalRecord where
  signal_text : String
  signal_type : String
  sent_date : Nat
  admin_id : Int
  recipient_count : Nat
  deriving Repr, DecidableEq

/-- A row of the `channel_events` audit table. -/
structure ChannelEvent where
  user_id : Int
  event_type : String
  event_date : Nat
  details : String
  deriving Repr, DecidableEq

/-- The four durable collections of the SQLite database. -/
structure BotDB where
  users : List UserRecord
  signals : List SignalRecord
  invite_links : List InviteRecord
  channel_events : List ChannelEvent
  deriving Repr, DecidableEq

def secondsPerHour : Nat := 3600

/-- Embeds `save_user` (telegram_bot_improved.py:117-132): `INSERT OR REPLACE INTO
users (user_id, username, first_name, last_name, phone_number, name,
product_access, registration_date, last_activity)`.  The conflicting row with
the same `user_id` is replaced; `is_active` and `channel_member` are absent
from the column list and take their schema defaults (1 and 0). -/
def save_user (users : List UserRecord) (user_id : Int)
    (username first_name last_name phone nm product_access : String)
    (now : Nat) : List UserRecord :=
  { user_id := user_id, username := username, first_name := first_name,
    last_name := last_name, phone_number := phone, name := nm,
    product_access := product_access, registration_date := now,
    is_active := true, channel_member := false, last_activity := some now }
    :: users.filter (fun u => decide (u.user_id ≠ user_id))

/-- Embeds `get_user` (134-157): `SELECT * FROM users WHERE user_id = ?`,
first row or `None`. -/
def get_user (users : List UserRecord) (user_id : Int) : Option UserRecord :=
  users.find? (fun u => decide (u.user_id = user_id))

/-- Embeds `update_channel_membership` (171-181): `UPDATE users SET channel_member = ?
WHERE user_id = ?`. -/
def update_channel_membership (users : List UserRecord) (user_id : Int)
    (is_member : Bool) : List UserRecord :=
  users.map (fun u =>
    if u.user_id = user_id then { u with channel_member := is_member } else u)

/-- Embeds `get_all_users` (183-211) with its default `active_only = True`:
`SELECT * FROM users WHERE is_active = 1`. -/
def get_all_users (users : List UserRecord) : List UserRecord :=
  users.filter (fun u => u.is_active)

/-- Embeds `get_channel_members` (213-215): the active users whose
`channel_member` flag is set. -/
def get_channel_members (users : List UserRecord) : List UserRecord :=
  (get_all_users users).filter (fun u => u.channel_member)

/-- Number of random bytes fed to `secrets.token_urlsafe` in
`generate_invite_link` (telegram_bot_improved.py:219). -/
def token_urlsafe_nbytes : Nat := 32

/-- Embeds `generate_invite_link` (217-233).  The freshly sampled URL-safe token is
the `link_id` argument (oracle model of `secrets.token_urlsafe(32)`).
`link_id` is the PRIMARY KEY of `invite_links` and the statement is a plain
`INSERT`, so a duplicate raises `sqlite3.IntegrityError`: modelled as `none`.
On success, returns the extended ledger and the constructed join URL. -/
def generate_invite_link (cfg : Config) (links : List InviteRecord)
    (user_id : Int) (link_id : String) (now : Nat) :
    Option (List InviteRecord × String) :=
  if links.any (fun r => r.link_id == link_id) then none
  else some
    ({ link_id := link_id, user_id := user_id, created_date := now,
       expiry_date := now + cfg.inviteLinkExpiryHours * secondsPerHour,
       used := false, used_date := none } :: links,
     "https://t.me/" ++ cfg.channelUsername ++ "?start=" ++ link_id)

/-- Embeds `validate_invite_link` (235-252): `SELECT user_id, expiry_date FROM
invite_links WHERE link_id = ? AND used = 0`; on a hit, the owner is returned
only when `datetime.now() < expiry_date`. -/
def validate_invite_link (links : List InviteRecord) (link_id : String)
    (now : Nat) : Option Int :=
  match links.find? (fun r => r.link_id == link_id && r.used == false) with
  | some r => if now < r.expiry_date then some r.user_id else none
  | none => none

/-- Embeds `mark_invite_used` (254-264): `UPDATE invite_links SET used = 1,
used_date = ? WHERE link_id = ?`. -/
def mark_invite_used (links : List InviteRecord) (link_id : String)
    (now : Nat) : List InviteRecord :=
  links.map (fun r =>
    if r.link_id == link_id then { r with used := true, used_date := some now }
    else r)

/-- Embeds `save_signal` (266-277): appends one row to the `signals` audit table. -/
def save_signal (signals : List SignalRecord) (signal_text signal_type : String)
    (admin_id : Int) (recipient_count : Nat) (now : Nat) : List SignalRecord :=
  signals ++ [{ signal_text := signal_text, signal_type := signal_type,
                sent_date := now, admin_id := admin_id,
                recipient_count := recipient_count }]

/-- Embeds `log_channel_event` (279-290): appends one row to `channel_events`. -/
def log_channel_event (events : List ChannelEvent) (user_id : Int)
    (event_type : String) (details : String) (now : Nat) : List ChannelEvent :=
  events ++ [{ user_id := user_id, event_type := event_type,
               event_date := now, details := details }]

/-- Outcome of the external `context.bot.get_chat_member` call: a role, or a
`TelegramError`. -/
inductive MemberQuery
  | ok (role : ChatRole)
  | err (msg : String)
  deriving Repr, DecidableEq

/-- Embeds `check_channel_membership` (294-310), the polling refresh path.  On a
successful query it always writes the membership boolean into the user store
and always appends a channel event, even if the value is unchanged; on a
`TelegramError` it logs (logging is an excluded collaborator), returns
`False`, and performs no database write. -/
def check_channel_membership (q : MemberQuery) (user_id : Int) (db : BotDB)
    (now : Nat) : Bool × BotDB :=
  match q with
  | .ok role =>
    let is_member := roleIsMember role
    let users := update_channel_membership db.users user_id is_member
    let status := if is_member then "joined" else "left"
    let events :=
      log_channel_event db.channel_events user_id ("channel_" ++ status) "" now
    (is_member, { db with users := users, channel_events := events })
  | .err _ => (false, db)

/-- Embeds `chat_member_handler` (857-887), the event-driven reconciliation path.
`was_member`/`is_member` are the role sets of line 868-869, inlined.  Returns
the updated database and whether a welcome message was attempted (the
attempt's own failure is caught and only logged, 878-885). -/
def chat_member_handler (cfg : Config) (user_id : Int) (chat_id : String)
    (old_status new_status : ChatRole) (db : BotDB) (now : Nat) :
    BotDB × Bool :=
  if chat_id == cfg.signalChannelId then
    if roleIsMember old_status != roleIsMember new_status then
      if roleIsMember new_status then
        ({ db with
            users := update_channel_membership db.users user_id
              (roleIsMember new_status),
            channel_events := log_channel_event db.channel_events user_id
              "channel_joined" "" now }, true)
      else
        ({ db with
            users := update_channel_membership db.users user_id
              (roleIsMember new_status),
            channel_events := log_channel_event db.channel_events user_id
              "channel_left" "" now }, false)
    else (db, false)
  else (db, false)

/-- The fixed tier labels checked in `product_access_handler` (telegram_bot_improved.py:402). -/
def product_tiers : List String :=
  ["ü•â Ÿæÿß€åŸá", "ü•à ŸÜŸÇÿ±Ÿá‚Äåÿß€å", "ü•á ÿ∑ŸÑÿß€å€å", "üíé VIP"]

/-- The cancel-button caption compared against in `phone_number_handler` (telegram_bot_improved.py:362). -/
def cancelButtonText : String := "‚ùå ÿßŸÜÿµÿ±ÿßŸÅ"

/-- Ephemeral per-identity `context.user_data` dictionary, with the keys this
bot writes (`phone_number`, `name`, `waiting_for_signal`,
`waiting_for_broadcast`, `from_invite_link`); absent keys are `none`/`false`. -/
structure UserData where
  phone_number : Option String
  name : Option String
  waiting_for_signal : Bool
  waiting_for_broadcast : Bool
  from_invite_link : Bool
  deriving Repr, DecidableEq

/-- A fresh `context.user_data`: no keys set. -/
def UserData.empty : UserData :=
  { phone_number := none, name := none, waiting_for_signal := false,
    waiting_for_broadcast := false, from_invite_link := false }

/-- Whitespace stripped by Python `str.strip` (restricted to the ASCII
whitespace characters; the inputs of interest are ASCII). -/
def isPySpace (c : Char) : Bool :=
  c == ' ' || c == '\t' || c == '\n' || c == '\r' || c == '\x0B' || c == '\x0C'

/-- Python `str.strip()`: drop leading and trailing whitespace. -/
def pyStrip (s : String) : String :=
  String.mk (((s.data.dropWhile isPySpace).reverse.dropWhile isPySpace).reverse)

/-- Conversation states of the registration `ConversationHandler`
(`PHONE_NUMBER, NAME, PRODUCT_ACCESS = range(3)`, line 48), plus the
terminal `ConversationHandler.END`. -/
inductive ConvState
  | phoneNumber
  | name
  | productAccess
  | ended
  deriving Repr, DecidableEq

/-- An inbound conversation event: a shared contact, a text message, or the
`/cancel` command (the fallback of the `ConversationHandler`). -/
inductive Msg
  | contact (phone : String)
  | text (t : String)
  | cancelCmd
  deriving Repr, DecidableEq

/-- Embeds `name_handler` (372-396): strips the text; length < 2 re-prompts and
stays in `NAME`; otherwise stores the stripped name and moves to
`PRODUCT_ACCESS`. -/
def name_handler (t : String) (ud : UserData) : ConvState × UserData :=
  if (pyStrip t).length < 2 then (ConvState.name, ud)
  else (ConvState.productAccess, { ud with name := some (pyStrip t) })

/-- Embeds `cancel` (893-899): replies a confirmation and returns
`ConversationHandler.END`; `context.user_data` is left untouched. -/
def cancel (ud : UserData) : ConvState × UserData := (ConvState.ended, ud)

/-- The `effective_user` fields read by `product_access_handler` (407-416);
`username or ""` etc. is `Option.getD`. -/
structure TgUser where
  id : Int
  username : Option String
  first_name : Option String
  last_name : Option String
  deriving Repr, DecidableEq

/-- Embeds `product_access_handler` (398-439): an unknown tier label re-prompts and
stays; a known one saves the user via `save_user` and then runs
`check_channel_membership` before ending the conversation.  Reading
`context.user_data` keys that were never set raises `KeyError` in the source:
modelled as `none`. -/
def product_access_handler (user : TgUser) (q : MemberQuery) (t : String)
    (ud : UserData) (db : BotDB) (now : Nat) : Option (ConvState × BotDB) :=
  if product_tiers.contains t then
    match ud.phone_number, ud.name with
    | some phone, some nm =>
      let users := save_user db.users user.id (user.username.getD "")
        (user.first_name.getD "") (user.last_name.getD "") phone nm t now
      let db1 : BotDB := { db with users := users }
      let r := check_channel_membership q user.id db1 now
      some (ConvState.ended, r.2)
    | _, _ => none
  else some (ConvState.productAccess, db)

/-- One step of the registration machine over `(state, user_data)`: the
per-state handlers of the `ConversationHandler` (914-921).  `PHONE_NUMBER`
dispatches contacts and text to `phone_number_handler` (350-370); `NAME` has
only a text handler (`name_handler`); in `PRODUCT_ACCESS` only the resulting
state transition is tracked here (`product_access_handler` leaves
`user_data` unchanged); `/cancel` is the fallback in every state. -/
def regStep : ConvState × UserData → Msg → ConvState × UserData
  | (ConvState.ended, ud), _ => (ConvState.ended, ud)
  | (_, ud), Msg.cancelCmd => cancel ud
  | (ConvState.phoneNumber, ud), Msg.contact phone =>
      (ConvState.name, { ud with phone_number := some phone })
  | (ConvState.phoneNumber, ud), Msg.text t =>
      if t == cancelButtonText then (ConvState.ended, ud)
      else (ConvState.phoneNumber, ud)
  | (ConvState.name, ud), Msg.text t => name_handler t ud
  | (ConvState.name, ud), Msg.contact _ => (ConvState.name, ud)
  | (ConvState.productAccess, ud), Msg.text t =>
      (if product_tiers.contains t then ConvState.ended
       else ConvState.productAccess, ud)
  | (ConvState.productAccess, ud), Msg.contact _ =>
      (ConvState.productAccess, ud)

/-- Run the registration machine over a trace of events. -/
def regRun (p : ConvState × UserData) (evts : List Msg) : ConvState × UserData :=
  evts.foldl regStep p

/-- Embeds `broadcast_prompt` (730-746): admin gate first; on success edits the
prompt (`true`) and sets the `waiting_for_broadcast` flag; a non-admin is
returned with nothing done. -/
def broadcast_prompt (cfg : Config) (user_id : Int) (ud : UserData) :
    Bool × UserData :=
  if cfg.adminUserIds.contains user_id then
    (true, { ud with waiting_for_broadcast := true })
  else (false, ud)

/-- Embeds `send_signal_prompt` (712-728): admin gate first; on success edits the
prompt and sets `waiting_for_signal`. -/
def send_signal_prompt (cfg : Config) (user_id : Int) (ud : UserData) :
    Bool × UserData :=
  if cfg.adminUserIds.contains user_id then
    (true, { ud with waiting_for_signal := true })
  else (false, ud)

/-- Embeds `show_user_list` (685-710): admin gate first; `true` iff the listing was
produced. -/
def show_user_list (cfg : Config) (user_id : Int) : Bool :=
  cfg.adminUserIds.contains user_id

/-- Embeds `show_admin_panel` (653-683), the admin statistics panel: admin gate
first; `true` iff the panel (with its statistics) was shown. -/
def show_admin_panel (cfg : Config) (user_id : Int) : Bool :=
  cfg.adminUserIds.contains user_id

/-- The fan-out loop of `handle_admin_messages` (764-774 and 801-811): each
recipient, in order, is attempted inside `try/except`; a success is delivered
and increments `sent_count`, a failure increments `failed_count` and the loop
continues with the next recipient.  Returns the identities delivered to,
`sent_count` and `failed_count` (structural recursion computing the same
in-order result as the Python `for` loop's accumulation). -/
def sendLoop (sendOk : Int → Bool) : List Int → List Int × Nat × Nat
  | [] => ([], 0, 0)
  | uid :: rest =>
    let r := sendLoop sendOk rest
    if sendOk uid then (uid :: r.1, r.2.1 + 1, r.2.2)
    else (r.1, r.2.1, r.2.2 + 1)

/-- Embeds `handle_admin_messages` (748-827): the admin gate is the first statement;
then the `waiting_for_signal` branch fans out to the channel members and the
`waiting_for_broadcast` branch to all active users, each followed by exactly
one `save_signal` audit row whose count is `sent_count`.  Returns the
delivered recipient identities, the updated `user_data` and database. -/
def handle_admin_messages (cfg : Config) (sendOk : Int → Bool) (user_id : Int)
    (msg_text : String) (ud : UserData) (db : BotDB) (now : Nat) :
    List Int × UserData × BotDB :=
  if cfg.adminUserIds.contains user_id then
    if ud.waiting_for_signal then
      let recipients := (get_channel_members db.users).map (fun u => u.user_id)
      let r := sendLoop sendOk recipients
      let signals := save_signal db.signals msg_text "signal" user_id r.2.1 now
      (r.1, { ud with waiting_for_signal := false },
       { db with signals := signals })
    else if ud.waiting_for_broadcast then
      let recipients := (get_all_users db.users).map (fun u => u.user_id)
      let r := sendLoop sendOk recipients
      let signals := save_signal db.signals msg_text "broadcast" user_id r.2.1 now
      (r.1, { ud with waiting_for_broadcast := false },
       { db with signals := signals })
    else ([], ud, db)
  else ([], ud, db)

/-- Pairwise-distinct primary keys of the `invite_links` table. -/
def linkIdsUnique (links : List InviteRecord) : Prop :=
  links.Pairwise (fun a b => a.link_id ≠ b.link_id)

/-- Pairwise-distinct primary keys of the `users` table. -/
def userIdsUnique (users : List UserRecord) : Prop :=
  users.Pairwise (fun a b => a.user_id ≠ b.user_id)


/-! ### Invite ledger lemmas -/

lemma mem_unique_link {links : List InviteRecord} (h : linkIdsUnique links)
    {r r' : InviteRecord} (hr : r ∈ links) (hr' : r' ∈ links)
    (he : r.link_id = r'.link_id) : r = r' := by
  induction links with
  | nil => cases hr
  | cons a tl ih =>
    rcases List.pairwise_cons.mp h with ⟨ha, ht⟩
    rcases List.mem_cons.mp hr with h1 | h1
    · subst h1
      rcases List.mem_cons.mp hr' with h2 | h2
      · rw [h2]
      · exact absurd he (ha _ h2)
    · rcases List.mem_cons.mp hr' with h2 | h2
      · subst h2
        exact absurd he.symm (ha _ h1)
      · exact ih ht h1 h2

lemma validate_invite_link_of_find?_none {links : List InviteRecord}
    {l : String} {now : Nat}
    (h : links.find? (fun r => r.link_id == l && r.used == false) = none) :
    validate_invite_link links l now = none := by
  unfold validate_invite_link
  rw [h]

lemma validate_invite_link_of_find?_some {links : List InviteRecord}
    {l : String} {now : Nat} {r : InviteRecord}
    (h : links.find? (fun r => r.link_id == l && r.used == false) = some r) :
    validate_invite_link links l now =
      if now < r.expiry_date then some r.user_id else none := by
  unfold validate_invite_link
  rw [h]

lemma validate_invite_link_eq_some_iff {links : List InviteRecord}
    {l : String} {now : Nat} {uid : Int} (h : linkIdsUnique links) :
    validate_invite_link links l now = some uid ↔
      ∃ r ∈ links, r.link_id = l ∧ r.used = false ∧ now < r.expiry_date ∧
        r.user_id = uid := by
  constructor
  · intro hv
    cases hfind : links.find? (fun r => r.link_id == l && r.used == false) with
    | none => rw [validate_invite_link_of_find?_none hfind] at hv; cases hv
    | some r =>
      rw [validate_invite_link_of_find?_some hfind] at hv
      have hp := List.find?_some hfind
      have hmem := List.mem_of_find?_eq_some hfind
      simp only [Bool.and_eq_true, beq_iff_eq] at hp
      by_cases hex : now < r.expiry_date
      · rw [if_pos hex] at hv
        exact ⟨r, hmem, hp.1, hp.2, hex, Option.some.inj hv⟩
      · rw [if_neg hex] at hv; cases hv
  · rintro ⟨r, hmem, hl, hu, hex, huid⟩
    have hp : (fun r => r.link_id == l && r.used == false) r = true := by
      simp [hl, hu]
    have hs : (links.find? (fun r => r.link_id == l && r.used == false)).isSome :=
      List.find?_isSome.mpr ⟨r, hmem, hp⟩
    cases hfind : links.find? (fun r => r.link_id == l && r.used == false) with
    | none => rw [hfind] at hs; cases hs
    | some r' =>
      have hp' := List.find?_some hfind
      have hmem' := List.mem_of_find?_eq_some hfind
      simp only [Bool.and_eq_true, beq_iff_eq] at hp'
      have hrr : r' = r := mem_unique_link h hmem' hmem (hp'.1.trans hl.symm)
      subst hrr
      rw [validate_invite_link_of_find?_some hfind, if_pos hex, huid]

lemma find?_mark_invite_used_eq_none (links : List InviteRecord) (l : String)
    (t : Nat) :
    (mark_invite_used links l t).find?
      (fun r => r.link_id == l && r.used == false) = none := by
  induction links with
  | nil => rfl
  | cons a tl ih =>
    simp only [mark_invite_used, List.map_cons] at ih ⊢
    cases hba : (a.link_id == l) with
    | false =>
      rw [if_neg (by simp), List.find?_cons_of_neg _ (by simp [hba])]
      exact ih
    | true =>
      rw [if_pos rfl, List.find?_cons_of_neg _ (by simp)]
      exact ih

lemma validate_after_mark_invite_used (links : List InviteRecord) (l : String)
    (t now : Nat) :
    validate_invite_link (mark_invite_used links l t) l now = none :=
  validate_invite_link_of_find?_none (find?_mark_invite_used_eq_none links l t)

lemma validate_expired {links : List InviteRecord} {l : String} {now : Nat}
    (h : ∀ r ∈ links, r.link_id = l → r.expiry_date ≤ now) :
    validate_invite_link links l now = none := by
  cases hfind : links.find? (fun r => r.link_id == l && r.used == false) with
  | none => exact validate_invite_link_of_find?_none hfind
  | some r =>
    rw [validate_invite_link_of_find?_some hfind]
    have hp := List.find?_some hfind
    have hmem := List.mem_of_find?_eq_some hfind
    simp only [Bool.and_eq_true, beq_iff_eq] at hp
    rw [if_neg (Nat.not_lt.mpr (h r hmem hp.1))]

lemma generate_invite_link_of_fresh {cfg : Config} {links : List InviteRecord}
    {uid : Int} {token : String} {now : Nat}
    (h : ∀ r ∈ links, r.link_id ≠ token) :
    generate_invite_link cfg links uid token now =
      some
        ({ link_id := token, user_id := uid, created_date := now,
           expiry_date := now + cfg.inviteLinkExpiryHours * secondsPerHour,
           used := false, used_date := none } :: links,
         "https://t.me/" ++ cfg.channelUsername ++ "?start=" ++ token) := by
  unfold generate_invite_link
  have hf : links.any (fun r => r.link_id == token) = false := by
    rw [List.any_eq_false]
    intro r hr
    simpa using h r hr
  rw [if_neg (by simp [hf])]

lemma generate_invite_link_inv {cfg : Config} {links links' : List InviteRecord}
    {uid : Int} {token url : String} {now : Nat}
    (hgen : generate_invite_link cfg links uid token now = some (links', url)) :
    links.any (fun r => r.link_id == token) = false ∧
      links' =
        { link_id := token, user_id := uid, created_date := now,
          expiry_date := now + cfg.inviteLinkExpiryHours * secondsPerHour,
          used := false, used_date := none } :: links ∧
      url = "https://t.me/" ++ cfg.channelUsername ++ "?start=" ++ token := by
  unfold generate_invite_link at hgen
  by_cases hc : (links.any (fun r => r.link_id == token)) = true
  · rw [if_pos hc] at hgen; cases hgen
  · rw [if_neg hc] at hgen
    simp only [Option.some.injEq, Prod.mk.injEq] at hgen
    exact ⟨by simpa using hc, hgen.1.symm, hgen.2.symm⟩

lemma validate_after_generate {cfg : Config} {links links' : List InviteRecord}
    {uid : Int} {token url : String} {now : Nat}
    (hh : 0 < cfg.inviteLinkExpiryHours)
    (hgen : generate_invite_link cfg links uid token now = some (links', url)) :
    validate_invite_link links' token now = some uid := by
  obtain ⟨-, hl, -⟩ := generate_invite_link_inv hgen
  subst hl
  have hfind :
      (({ link_id := token, user_id := uid, created_date := now,
          expiry_date := now + cfg.inviteLinkExpiryHours * secondsPerHour,
          used := false, used_date := none } : InviteRecord) :: links).find?
        (fun r => r.link_id == token && r.used == false) =
        some { link_id := token, user_id := uid, created_date := now,
               expiry_date := now + cfg.inviteLinkExpiryHours * secondsPerHour,
               used := false, used_date := none } :=
    List.find?_cons_of_pos _ (by simp)
  rw [validate_invite_link_of_find?_some hfind]
  have hpos : 0 < cfg.inviteLinkExpiryHours * secondsPerHour :=
    Nat.mul_pos hh (by norm_num [secondsPerHour])
  rw [if_pos (Nat.lt_add_of_pos_right hpos)]

lemma generate_preserves_unique {cfg : Config} {links links' : List InviteRecord}
    {uid : Int} {token url : String} {now : Nat}
    (hgen : generate_invite_link cfg links uid token now = some (links', url))
    (hu : linkIdsUnique links) : linkIdsUnique links' := by
  obtain ⟨hf, hl, -⟩ := generate_invite_link_inv hgen
  subst hl
  refine List.pairwise_cons.mpr ⟨?_, hu⟩
  intro b hb hEq
  exact (List.any_eq_false.mp hf b hb) (by simp [← hEq])

/-! ### Claim theorems: invite ledger -/

/-- C1: `validate_invite_link` returns the owning identity iff the token is a
known ledger row whose `used` flag is unset and whose expiry has not elapsed;
`generate_invite_link` immediately followed by `validate_invite_link` of the
returned token yields the owner; any `validate_invite_link` after
`mark_invite_used` of the token, or after its expiry even if never used,
returns `None`. -/
theorem C1_validate_invite_link :
    (∀ (links : List InviteRecord) (l : String) (now : Nat) (uid : Int),
      linkIdsUnique links →
      (validate_invite_link links l now = some uid ↔
        ∃ r ∈ links, r.link_id = l ∧ r.used = false ∧ now < r.expiry_date ∧
          r.user_id = uid))
    ∧ (∀ (cfg : Config) (links links' : List InviteRecord) (uid : Int)
        (token url : String) (now : Nat),
        0 < cfg.inviteLinkExpiryHours →
        generate_invite_link cfg links uid token now = some (links', url) →
        validate_invite_link links' token now = some uid)
    ∧ (∀ (links : List InviteRecord) (l : String) (t now : Nat),
        validate_invite_link (mark_invite_used links l t) l now = none)
    ∧ (∀ (links : List InviteRecord) (l : String) (now : Nat),
        (∀ r ∈ links, r.link_id = l → r.expiry_date ≤ now) →
        validate_invite_link links l now = none) :=
  ⟨fun _ _ _ _ h => validate_invite_link_eq_some_iff h,
   fun _ _ _ _ _ _ _ hh hgen => validate_after_generate hh hgen,
   fun links l t now => validate_after_mark_invite_used links l t now,
   fun _ _ _ h => validate_expired h⟩

/-- C1 witness: a concrete ledger round trip.  Issue a token for identity 7 at
time 0 under the default configuration (24h expiry), validate it immediately,
mark it used and validate again, and validate an expired never-used token. -/
theorem C1_validate_invite_link_witness :
    validate_invite_link
      [{ link_id := "tok", user_id := 7, created_date := 0,
         expiry_date := 0 + defaultConfig.inviteLinkExpiryHours * secondsPerHour,
         used := false, used_date := none }] "tok" 0 = some 7
    ∧ validate_invite_link
        (mark_invite_used
          [{ link_id := "tok", user_id := 7, created_date := 0,
             expiry_date := 86400, used := false, used_date := none }] "tok" 5)
        "tok" 6 = none
    ∧ validate_invite_link
        [{ link_id := "tok", user_id := 7, created_date := 0,
           expiry_date := 100, used := false, used_date := none }] "tok" 100 =
        none
    ∧ validate_invite_link
        [{ link_id := "tok", user_id := 7, created_date := 0,
           expiry_date := 100, used := false, used_date := none }] "tok" 50 =
        some 7 :=
  ⟨C1_validate_invite_link.2.1 defaultConfig []
      [{ link_id := "tok", user_id := 7, created_date := 0,
         expiry_date := 0 + defaultConfig.inviteLinkExpiryHours * secondsPerHour,
         used := false, used_date := none }] 7 "tok"
      ("https://t.me/" ++ defaultConfig.channelUsername ++ "?start=" ++ "tok") 0
      (by decide) (by decide),
   C1_validate_invite_link.2.2.1 _ "tok" 5 6,
   C1_validate_invite_link.2.2.2 _ "tok" 100 (by decide),
   (C1_validate_invite_link.1 _ "tok" 50 7 (by simp [linkIdsUnique])).mpr
     ⟨_, List.mem_singleton.mpr rfl, rfl, rfl, by decide, rfl⟩⟩

/-- C9: `generate_invite_link` stores the sampled token bound to the identity
with expiry `now +` the configured duration (24 hours under the default
configuration) and returns a join URL embedding exactly that token as its
`start` parameter; the token comes from `secrets.token_urlsafe(32)`, i.e.
32 random bytes ≥ 128 bits of entropy; a token colliding with an existing
ledger row is rejected by the PRIMARY KEY (so the ledger never holds
duplicate tokens). -/
theorem C9_generate_invite_link :
    (∀ (cfg : Config) (links : List InviteRecord) (uid : Int) (token : String)
      (now : Nat),
      (∀ r ∈ links, r.link_id ≠ token) →
      generate_invite_link cfg links uid token now =
        some
          ({ link_id := token, user_id := uid, created_date := now,
             expiry_date := now + cfg.inviteLinkExpiryHours * secondsPerHour,
             used := false, used_date := none } :: links,
           "https://t.me/" ++ cfg.channelUsername ++ "?start=" ++ token))
    ∧ (∀ (cfg : Config) (links links' : List InviteRecord) (uid : Int)
        (token url : String) (now : Nat),
        generate_invite_link cfg links uid token now = some (links', url) →
        linkIdsUnique links → linkIdsUnique links')
    ∧ defaultConfig.inviteLinkExpiryHours = 24
    ∧ 128 ≤ 8 * token_urlsafe_nbytes :=
  ⟨fun _ _ _ _ _ h => generate_invite_link_of_fresh h,
   fun _ _ _ _ _ _ _ hgen hu => generate_preserves_unique hgen hu,
   rfl, by norm_num [token_urlsafe_nbytes]⟩

/-- C9 witness: issuing a token for identity 7 on an empty ledger at time 0
under the default configuration yields the stored binding with expiry
`24 * 3600` and the join URL embedding the token. -/
theorem C9_generate_invite_link_witness :
    generate_invite_link defaultConfig [] 7 "tok" 0 =
      some
        ([{ link_id := "tok", user_id := 7, created_date := 0,
            expiry_date := 0 + defaultConfig.inviteLinkExpiryHours * secondsPerHour,
            used := false, used_date := none }],
         "https://t.me/" ++ defaultConfig.channelUsername ++ "?start=" ++ "tok")
    ∧ linkIdsUnique
        [{ link_id := "tok", user_id := 7, created_date := 0,
           expiry_date := 0 + defaultConfig.inviteLinkExpiryHours * secondsPerHour,
           used := false, used_date := none }] :=
  ⟨C9_generate_invite_link.1 defaultConfig [] 7 "tok" 0 (by simp),
   C9_generate_invite_link.2.1 defaultConfig []
     [{ link_id := "tok", user_id := 7, created_date := 0,
        expiry_date := 0 + defaultConfig.inviteLinkExpiryHours * secondsPerHour,
        used := false, used_date := none }] 7 "tok"
     ("https://t.me/" ++ defaultConfig.channelUsername ++ "?start=" ++ "tok") 0
     (C9_generate_invite_link.1 defaultConfig [] 7 "tok" 0 (by simp))
     List.Pairwise.nil⟩

/-! ### Broadcast Engine and Admin Gate lemmas -/

lemma length_filter_add_length_filter_not {α : Type} (p : α → Bool)
    (l : List α) :
    (l.filter p).length + (l.filter (fun a => !(p a))).length = l.length :=
  Eq.symm (List.length_eq_length_filter_add p)

lemma sendLoop_spec (sendOk : Int → Bool) (recipients : List Int) :
    sendLoop sendOk recipients =
      (recipients.filter sendOk,
       (recipients.filter sendOk).length,
       (recipients.filter (fun u => !(sendOk u))).length) := by
  induction recipients with
  | nil => rfl
  | cons r tl ih =>
    cases hs : sendOk r <;> simp [sendLoop, hs, List.filter_cons, ih]

lemma handle_admin_messages_broadcast (cfg : Config) (sendOk : Int → Bool)
    (user_id : Int) (msg_text : String) (ud : UserData) (db : BotDB) (now : Nat)
    (hadmin : cfg.adminUserIds.contains user_id = true)
    (hsig : ud.waiting_for_signal = false)
    (hbc : ud.waiting_for_broadcast = true) :
    handle_admin_messages cfg sendOk user_id msg_text ud db now =
      (((get_all_users db.users).map (fun u => u.user_id)).filter sendOk,
       { ud with waiting_for_broadcast := false },
       { db with signals := db.signals ++
          [{ signal_text := msg_text, signal_type := "broadcast",
             sent_date := now, admin_id := user_id,
             recipient_count :=
               (((get_all_users db.users).map (fun u => u.user_id)).filter
                 sendOk).length }] }) := by
  have hmem : user_id ∈ cfg.adminUserIds := by simpa using hadmin
  simp [handle_admin_messages, hmem, hsig, hbc, sendLoop_spec, save_signal]

/-! ### Claim theorems: Broadcast Engine (C2) -/

/-- C2: a broadcast pass over the active-user audience in which exactly one
individual send fails still attempts and delivers to every other recipient
(the failure does not abort the pass): the delivered set is exactly the
recipients whose send succeeds, the `sent` count is the audience size minus
one, and exactly one audit row is appended whose `recipient_count` equals the
number of successful deliveries, not the audience size. -/
theorem C2_broadcast_isolated_failure (cfg : Config) (sendOk : Int → Bool)
    (user_id : Int) (msg_text : String) (ud : UserData) (db : BotDB) (now : Nat)
    (hadmin : cfg.adminUserIds.contains user_id = true)
    (hsig : ud.waiting_for_signal = false)
    (hbc : ud.waiting_for_broadcast = true)
    (hone : (((get_all_users db.users).map (fun u => u.user_id)).filter
        (fun u => !(sendOk u))).length = 1) :
    handle_admin_messages cfg sendOk user_id msg_text ud db now =
      (((get_all_users db.users).map (fun u => u.user_id)).filter sendOk,
       { ud with waiting_for_broadcast := false },
       { db with signals := db.signals ++
          [{ signal_text := msg_text, signal_type := "broadcast",
             sent_date := now, admin_id := user_id,
             recipient_count :=
               ((get_all_users db.users).map (fun u => u.user_id)).length
                 - 1 }] })
    ∧ (((get_all_users db.users).map (fun u => u.user_id)).filter
        sendOk).length + 1 =
      ((get_all_users db.users).map (fun u => u.user_id)).length := by
  have hlen := length_filter_add_length_filter_not sendOk
    ((get_all_users db.users).map (fun u => u.user_id))
  have hsent : (((get_all_users db.users).map (fun u => u.user_id)).filter
      sendOk).length =
      ((get_all_users db.users).map (fun u => u.user_id)).length - 1 := by
    omega
  constructor
  · rw [handle_admin_messages_broadcast cfg sendOk user_id msg_text ud db now
      hadmin hsig hbc, hsent]
  · omega

/-- C2 witness: admin 1 broadcasts to the two registered active users 2 and 3
while delivery to user 2 fails; user 3 is still delivered to, `sent = 1 =
2 - 1`, and one audit row with `recipient_count = 1` is appended. -/
theorem C2_broadcast_isolated_failure_witness :
    handle_admin_messages
      { adminUserIds := [1], signalChannelId := "C", channelUsername := "ch",
        inviteLinkExpiryHours := 24, maxUsersPerPage := 10 }
      (fun i => i != 2) 1 "hello"
      { UserData.empty with waiting_for_broadcast := true }
      { users :=
          [{ user_id := 2, username := "a", first_name := "", last_name := "",
             phone_number := "+2", name := "A2", product_access := "VIP",
             registration_date := 0, is_active := true, channel_member := true,
             last_activity := none },
           { user_id := 3, username := "b", first_name := "", last_name := "",
             phone_number := "+3", name := "A3", product_access := "VIP",
             registration_date := 0, is_active := true, channel_member := false,
             last_activity := none }],
        signals := [], invite_links := [], channel_events := [] } 9 =
      ([3],
       UserData.empty,
       { users :=
          [{ user_id := 2, username := "a", first_name := "", last_name := "",
             phone_number := "+2", name := "A2", product_access := "VIP",
             registration_date := 0, is_active := true, channel_member := true,
             last_activity := none },
           { user_id := 3, username := "b", first_name := "", last_name := "",
             phone_number := "+3", name := "A3", product_access := "VIP",
             registration_date := 0, is_active := true, channel_member := false,
             last_activity := none }],
         signals :=
          [{ signal_text := "hello", signal_type := "broadcast", sent_date := 9,
             admin_id := 1, recipient_count := 1 }],
         invite_links := [], channel_events := [] }) := by
  have h := C2_broadcast_isolated_failure
    { adminUserIds := [1], signalChannelId := "C", channelUsername := "ch",
      inviteLinkExpiryHours := 24, maxUsersPerPage := 10 }
    (fun i => i != 2) 1 "hello"
    { UserData.empty with waiting_for_broadcast := true }
    { users :=
        [{ user_id := 2, username := "a", first_name := "", last_name := "",
           phone_number := "+2", name := "A2", product_access := "VIP",
           registration_date := 0, is_active := true, channel_member := true,
           last_activity := none },
         { user_id := 3, username := "b", first_name := "", last_name := "",
           phone_number := "+3", name := "A3", product_access := "VIP",
           registration_date := 0, is_active := true, channel_member := false,
           last_activity := none }],
      signals := [], invite_links := [], channel_events := [] } 9
    rfl rfl rfl (by decide)
  rw [h.1]
  rfl

/-! ### Claim theorems: Admin Gate (C3) -/

/-- C3: for an identity outside the configured admin allow-list, every
admin-only entry point (`handle_admin_messages` covering both the manual
signal and broadcast passes, `broadcast_prompt`, `send_signal_prompt`,
`show_user_list`, and the statistics panel `show_admin_panel`) is denied as
its first step: no message is sent to any recipient, no audit row is written,
and no state (database or `user_data`) is touched. -/
theorem C3_admin_gate (cfg : Config) (sendOk : Int → Bool) (user_id : Int)
    (msg_text : String) (ud : UserData) (db : BotDB) (now : Nat)
    (h : cfg.adminUserIds.contains user_id = false) :
    handle_admin_messages cfg sendOk user_id msg_text ud db now = ([], ud, db)
    ∧ broadcast_prompt cfg user_id ud = (false, ud)
    ∧ send_signal_prompt cfg user_id ud = (false, ud)
    ∧ show_user_list cfg user_id = false
    ∧ show_admin_panel cfg user_id = false := by
  refine ⟨?_, ?_, ?_, ?_, ?_⟩
  · unfold handle_admin_messages
    rw [if_neg (by rw [h]; simp)]
  · unfold broadcast_prompt
    rw [if_neg (by rw [h]; simp)]
  · unfold send_signal_prompt
    rw [if_neg (by rw [h]; simp)]
  · unfold show_user_list
    exact h
  · unfold show_admin_panel
    exact h

/-- C3 witness: non-admin identity 2 (allow-list `[1]`) invokes every
admin-only action on a database with one registered user: nothing is sent,
no audit row is written, nothing changes. -/
theorem C3_admin_gate_witness :
    handle_admin_messages
      { adminUserIds := [1], signalChannelId := "C", channelUsername := "ch",
        inviteLinkExpiryHours := 24, maxUsersPerPage := 10 }
      (fun _ => true) 2 "pwn"
      { UserData.empty with waiting_for_broadcast := true }
      { users :=
          [{ user_id := 3, username := "b", first_name := "", last_name := "",
             phone_number := "+3", name := "A3", product_access := "VIP",
             registration_date := 0, is_active := true, channel_member := true,
             last_activity := none }],
        signals := [], invite_links := [], channel_events := [] } 0 =
      ([], { UserData.empty with waiting_for_broadcast := true },
       { users :=
          [{ user_id := 3, username := "b", first_name := "", last_name := "",
             phone_number := "+3", name := "A3", product_access := "VIP",
             registration_date := 0, is_active := true, channel_member := true,
             last_activity := none }],
         signals := [], invite_links := [], channel_events := [] })
    ∧ broadcast_prompt
        { adminUserIds := [1], signalChannelId := "C", channelUsername := "ch",
          inviteLinkExpiryHours := 24, maxUsersPerPage := 10 } 2
        UserData.empty = (false, UserData.empty) :=
  ⟨(C3_admin_gate _ (fun _ => true) 2 "pwn" _ _ 0 (by decide)).1,
   (C3_admin_gate
      { adminUserIds := [1], signalChannelId := "C", channelUsername := "ch",
        inviteLinkExpiryHours := 24, maxUsersPerPage := 10 }
      (fun _ => true) 2 "pwn" UserData.empty
      { users := [], signals := [], invite_links := [], channel_events := [] }
      0 (by decide)).2.1⟩

/-! ### User Store lemmas -/

lemma get_user_save_user (us : List UserRecord) (uid : Int)
    (username fn ln phone nm pa : String) (now : Nat) :
    get_user (save_user us uid username fn ln phone nm pa now) uid =
      some { user_id := uid, username := username, first_name := fn,
             last_name := ln, phone_number := phone, name := nm,
             product_access := pa, registration_date := now, is_active := true,
             channel_member := false, last_activity := some now } := by
  unfold get_user save_user
  exact List.find?_cons_of_pos _ (by simp)

lemma filter_save_user_length (us : List UserRecord) (uid : Int)
    (username fn ln phone nm pa : String) (now : Nat) :
    ((save_user us uid username fn ln phone nm pa now).filter
      (fun u => decide (u.user_id = uid))).length = 1 := by
  unfold save_user
  rw [List.filter_cons_of_pos (by simp), List.filter_filter]
  have hnil : ∀ a ∈ us,
      ¬ (decide (a.user_id = uid) && decide (a.user_id ≠ uid)) = true := by
    intro a _
    by_cases h : a.user_id = uid <;> simp [h]
  rw [List.filter_eq_nil_iff.mpr hnil]
  rfl

lemma userIdsUnique_save_user {us : List UserRecord} (h : userIdsUnique us)
    (uid : Int) (username fn ln phone nm pa : String) (now : Nat) :
    userIdsUnique (save_user us uid username fn ln phone nm pa now) := by
  unfold save_user userIdsUnique
  refine List.pairwise_cons.mpr ⟨?_, List.Pairwise.filter _ h⟩
  intro b hb hEq
  have hbne : b.user_id ≠ uid := by simpa using List.of_mem_filter hb
  exact hbne hEq.symm

lemma get_user_update_channel_membership (us : List UserRecord) (uid : Int)
    (b : Bool) :
    get_user (update_channel_membership us uid b) uid =
      (get_user us uid).map (fun u => { u with channel_member := b }) := by
  unfold get_user update_channel_membership
  induction us with
  | nil => rfl
  | cons a tl ih =>
    by_cases ha : a.user_id = uid <;>
      simp [List.find?_cons, ha, ih, -List.find?_map]

lemma filter_length_update_channel_membership (us : List UserRecord)
    (uid x : Int) (b : Bool) :
    ((update_channel_membership us uid b).filter
      (fun u => decide (u.user_id = x))).length =
      (us.filter (fun u => decide (u.user_id = x))).length := by
  unfold update_channel_membership
  induction us with
  | nil => rfl
  | cons a tl ih =>
    by_cases ha : a.user_id = uid
    · by_cases hx : a.user_id = x
      · have h3 : uid = x := ha ▸ hx
        subst h3
        simp [List.filter_cons, ha, ih]
      · have h3 : ¬ uid = x := ha ▸ hx
        simp [List.filter_cons, ha, hx, h3, ih]
    · by_cases hx : a.user_id = x
      · have h3 : ¬ x = uid := fun he => ha (hx.trans he)
        simp [List.filter_cons, ha, hx, h3, ih]
      · simp [List.filter_cons, ha, hx, ih]

lemma userIdsUnique_update_channel_membership {us : List UserRecord}
    (h : userIdsUnique us) (uid : Int) (b : Bool) :
    userIdsUnique (update_channel_membership us uid b) := by
  unfold update_channel_membership userIdsUnique
  refine List.Pairwise.map _ (fun a c hac => ?_) h
  by_cases ha : a.user_id = uid <;> by_cases hc : c.user_id = uid <;>
    simp_all

lemma check_channel_membership_ok (role : ChatRole) (uid : Int) (db : BotDB)
    (now : Nat) :
    check_channel_membership (MemberQuery.ok role) uid db now =
      (roleIsMember role,
       { db with
          users := update_channel_membership db.users uid (roleIsMember role),
          channel_events := log_channel_event db.channel_events uid
            ("channel_" ++ (if roleIsMember role then "joined" else "left"))
            "" now }) := rfl

lemma check_channel_membership_err (e : String) (uid : Int) (db : BotDB)
    (now : Nat) :
    check_channel_membership (MemberQuery.err e) uid db now = (false, db) := rfl

lemma product_access_handler_success {user : TgUser} {q : MemberQuery}
    {t phone nm : String} {ud : UserData} {db : BotDB} {now : Nat}
    (ht : product_tiers.contains t = true)
    (hp : ud.phone_number = some phone) (hn : ud.name = some nm) :
    product_access_handler user q t ud db now =
      some (ConvState.ended,
        (check_channel_membership q user.id
          { db with
             users := save_user db.users user.id (user.username.getD "")
               (user.first_name.getD "") (user.last_name.getD "") phone nm t
               now }
          now).2) := by
  unfold product_access_handler
  rw [if_pos ht, hp, hn]

lemma pah_users_ok (user : TgUser) (role : ChatRole) (t phone nm : String)
    (db : BotDB) (now : Nat) :
    ((check_channel_membership (MemberQuery.ok role) user.id
        { db with
           users := save_user db.users user.id (user.username.getD "")
             (user.first_name.getD "") (user.last_name.getD "") phone nm t
             now }
        now).2).users =
      update_channel_membership
        (save_user db.users user.id (user.username.getD "")
          (user.first_name.getD "") (user.last_name.getD "") phone nm t now)
        user.id (roleIsMember role) := rfl

lemma pah_users_err (user : TgUser) (e t phone nm : String) (db : BotDB)
    (now : Nat) :
    ((check_channel_membership (MemberQuery.err e) user.id
        { db with
           users := save_user db.users user.id (user.username.getD "")
             (user.first_name.getD "") (user.last_name.getD "") phone nm t
             now }
        now).2).users =
      save_user db.users user.id (user.username.getD "")
        (user.first_name.getD "") (user.last_name.getD "") phone nm t now := rfl

/-! ### Claim theorems: registration completion (C4) and the re-registration
frame effect (C10) -/

/-- C4: an identity completing all three registration steps (a known tier
label with phone and name collected in `user_data`) ends the conversation and
leaves exactly one `users` row for that identity; the row's stored phone,
name and product-access tier equal the three collected values and its
registration timestamp is the completion time; pairwise-unique identities are
preserved by the upsert even on re-registration. -/
theorem C4_registration_completion (user : TgUser) (q : MemberQuery)
    (t phone nm : String) (ud : UserData) (db : BotDB) (now : Nat)
    (ht : product_tiers.contains t = true)
    (hp : ud.phone_number = some phone) (hn : ud.name = some nm) :
    ∃ db', product_access_handler user q t ud db now =
        some (ConvState.ended, db')
      ∧ (∃ r, get_user db'.users user.id = some r ∧ r.user_id = user.id
          ∧ r.phone_number = phone ∧ r.name = nm ∧ r.product_access = t
          ∧ r.registration_date = now)
      ∧ (db'.users.filter (fun u => decide (u.user_id = user.id))).length = 1
      ∧ (userIdsUnique db.users → userIdsUnique db'.users) := by
  refine ⟨(check_channel_membership q user.id
      { db with
         users := save_user db.users user.id (user.username.getD "")
           (user.first_name.getD "") (user.last_name.getD "") phone nm t now }
      now).2,
    product_access_handler_success ht hp hn, ?_, ?_, ?_⟩
  · cases q with
    | ok role =>
      rw [pah_users_ok, get_user_update_channel_membership, get_user_save_user,
        Option.map_some']
      exact ⟨_, rfl, rfl, rfl, rfl, rfl, rfl⟩
    | err e =>
      rw [pah_users_err, get_user_save_user]
      exact ⟨_, rfl, rfl, rfl, rfl, rfl, rfl⟩
  · cases q with
    | ok role =>
      rw [pah_users_ok, filter_length_update_channel_membership,
        filter_save_user_length]
    | err e =>
      rw [pah_users_err, filter_save_user_length]
  · intro hu
    cases q with
    | ok role =>
      rw [pah_users_ok]
      exact userIdsUnique_update_channel_membership
        (userIdsUnique_save_user hu user.id (user.username.getD "")
          (user.first_name.getD "") (user.last_name.getD "") phone nm t now)
        user.id (roleIsMember role)
    | err e =>
      rw [pah_users_err]
      exact userIdsUnique_save_user hu user.id (user.username.getD "")
        (user.first_name.getD "") (user.last_name.getD "") phone nm t now

/-- C4 witness: identity 5 completes registration with phone `+100`, name
`Ana` and the first tier label, while the membership query reports `member`. -/
theorem C4_registration_completion_witness :
    ∃ db', product_access_handler
        { id := 5, username := some "ana", first_name := some "Ana",
          last_name := none }
        (MemberQuery.ok ChatRole.member) product_tiers.headI
        { UserData.empty with phone_number := some "+100", name := some "Ana" }
        { users := [], signals := [], invite_links := [], channel_events := [] }
        3 =
        some (ConvState.ended, db')
      ∧ (∃ r, get_user db'.users 5 = some r ∧ r.user_id = 5
          ∧ r.phone_number = "+100" ∧ r.name = "Ana"
          ∧ r.product_access = product_tiers.headI
          ∧ r.registration_date = 3)
      ∧ (db'.users.filter (fun u => decide (u.user_id = 5))).length = 1
      ∧ (userIdsUnique
          ({ users := [], signals := [], invite_links := [],
             channel_events := [] } : BotDB).users → userIdsUnique db'.users) :=
  C4_registration_completion
    { id := 5, username := some "ana", first_name := some "Ana",
      last_name := none }
    (MemberQuery.ok ChatRole.member) product_tiers.headI "+100" "Ana"
    { UserData.empty with phone_number := some "+100", name := some "Ana" }
    { users := [], signals := [], invite_links := [], channel_events := [] }
    3 (by decide) rfl rfl

/-- C10: re-running the `save_user` upsert for an identity that already has a
`users` row leaves exactly one row for that identity, but the stored row's
`channel_member` flag is reset to the schema default 0 and `is_active` to the
schema default 1, because those columns are absent from the
`INSERT OR REPLACE` column list — previously synchronized channel-membership
state is silently discarded. -/
theorem C10_save_user_resets_flags (us : List UserRecord) (uid : Int)
    (username fn ln phone nm pa : String) (now : Nat) (u : UserRecord)
    (_hexisting : get_user us uid = some u) :
    get_user (save_user us uid username fn ln phone nm pa now) uid =
      some { user_id := uid, username := username, first_name := fn,
             last_name := ln, phone_number := phone, name := nm,
             product_access := pa, registration_date := now, is_active := true,
             channel_member := false, last_activity := some now }
    ∧ ((save_user us uid username fn ln phone nm pa now).filter
        (fun v => decide (v.user_id = uid))).length = 1 :=
  ⟨get_user_save_user us uid username fn ln phone nm pa now,
   filter_save_user_length us uid username fn ln phone nm pa now⟩

/-- C10 witness: identity 5 has a row with `channel_member = true`;
re-registering it stores a row with `channel_member = false` and
`is_active = true`. -/
theorem C10_save_user_resets_flags_witness :
    get_user
      (save_user
        [{ user_id := 5, username := "ana", first_name := "Ana",
           last_name := "", phone_number := "+100", name := "Ana",
           product_access := "VIP", registration_date := 0, is_active := true,
           channel_member := true, last_activity := none }]
        5 "ana" "Ana" "" "+200" "Ana B" "VIP" 9) 5 =
      some { user_id := 5, username := "ana", first_name := "Ana",
             last_name := "", phone_number := "+200", name := "Ana B",
             product_access := "VIP", registration_date := 9, is_active := true,
             channel_member := false, last_activity := some 9 }
    ∧ ((save_user
        [{ user_id := 5, username := "ana", first_name := "Ana",
           last_name := "", phone_number := "+100", name := "Ana",
           product_access := "VIP", registration_date := 0, is_active := true,
           channel_member := true, last_activity := none }]
        5 "ana" "Ana" "" "+200" "Ana B" "VIP" 9).filter
        (fun v => decide (v.user_id = 5))).length = 1 :=
  C10_save_user_resets_flags
    [{ user_id := 5, username := "ana", first_name := "Ana", last_name := "",
       phone_number := "+100", name := "Ana", product_access := "VIP",
       registration_date := 0, is_active := true, channel_member := true,
       last_activity := none }]
    5 "ana" "Ana" "" "+200" "Ana B" "VIP" 9
    { user_id := 5, username := "ana", first_name := "Ana", last_name := "",
      phone_number := "+100", name := "Ana", product_access := "VIP",
      registration_date := 0, is_active := true, channel_member := true,
      last_activity := none }
    (by decide)

/-! ### Claim theorems: the two membership-reconciliation paths (C6) and the
fail-closed transport-error path (C7) -/

/-- C6: the polling refresh path (`check_channel_membership`) is
level-triggered: every successful query writes the membership boolean into
the user store and appends one channel event, even when the value is
unchanged; the event-driven path (`chat_member_handler`) is edge-triggered:
when the derived `was_member`/`is_member` booleans are equal it does nothing,
and when they differ it writes the store, appends one `channel_joined` or
`channel_left` event, and attempts a welcome message exactly when the new
status is membership. -/
theorem C6_sync_level_vs_edge :
    (∀ (role : ChatRole) (uid : Int) (db : BotDB) (now : Nat),
      check_channel_membership (MemberQuery.ok role) uid db now =
        (roleIsMember role,
         { db with
            users := update_channel_membership db.users uid (roleIsMember role),
            channel_events := db.channel_events ++
              [{ user_id := uid,
                 event_type := "channel_" ++
                   (if roleIsMember role then "joined" else "left"),
                 event_date := now, details := "" }] }))
    ∧ (∀ (cfg : Config) (uid : Int) (chat : String) (o n : ChatRole)
        (db : BotDB) (now : Nat),
        roleIsMember o = roleIsMember n →
        chat_member_handler cfg uid chat o n db now = (db, false))
    ∧ (∀ (cfg : Config) (uid : Int) (o n : ChatRole) (db : BotDB) (now : Nat),
        roleIsMember o ≠ roleIsMember n →
        chat_member_handler cfg uid cfg.signalChannelId o n db now =
          ({ db with
              users := update_channel_membership db.users uid (roleIsMember n),
              channel_events := db.channel_events ++
                [{ user_id := uid,
                   event_type := if roleIsMember n then "channel_joined"
                     else "channel_left",
                   event_date := now, details := "" }] },
           roleIsMember n)) := by
  refine ⟨fun role uid db now => rfl, ?_, ?_⟩
  · intro cfg uid chat o n db now h
    unfold chat_member_handler
    by_cases hch : (chat == cfg.signalChannelId) = true
    · rw [if_pos hch, if_neg (by simp [h])]
    · rw [if_neg hch]
  · intro cfg uid o n db now h
    unfold chat_member_handler
    rw [if_pos (by simp), if_pos (bne_iff_ne.mpr h)]
    cases hnew : roleIsMember n <;> simp [log_channel_event]

/-- C6 witness: a polling refresh that reports `member` for identity 7 whose
stored flag is already set still rewrites the store and appends a duplicate
`channel_joined` event; an event-driven `member → administrator` update (both
member roles) does nothing; an event-driven `left → member` update writes,
logs one `channel_joined` event and attempts the welcome. -/
theorem C6_sync_level_vs_edge_witness :
    check_channel_membership (MemberQuery.ok ChatRole.member) 7
      { users :=
          [{ user_id := 7, username := "u", first_name := "", last_name := "",
             phone_number := "+7", name := "Uri", product_access := "VIP",
             registration_date := 0, is_active := true, channel_member := true,
             last_activity := none }],
        signals := [], invite_links := [],
        channel_events :=
          [{ user_id := 7, event_type := "channel_joined", event_date := 0,
             details := "" }] } 4 =
      (true,
       { users :=
          [{ user_id := 7, username := "u", first_name := "", last_name := "",
             phone_number := "+7", name := "Uri", product_access := "VIP",
             registration_date := 0, is_active := true, channel_member := true,
             last_activity := none }],
         signals := [], invite_links := [],
         channel_events :=
          [{ user_id := 7, event_type := "channel_joined", event_date := 0,
             details := "" },
           { user_id := 7, event_type := "channel_joined", event_date := 4,
             details := "" }] })
    ∧ chat_member_handler
        { adminUserIds := [1], signalChannelId := "C", channelUsername := "ch",
          inviteLinkExpiryHours := 24, maxUsersPerPage := 10 }
        7 "C" ChatRole.member ChatRole.administrator
        { users := [], signals := [], invite_links := [], channel_events := [] }
        4 =
      ({ users := [], signals := [], invite_links := [], channel_events := [] },
       false)
    ∧ chat_member_handler
        { adminUserIds := [1], signalChannelId := "C", channelUsername := "ch",
          inviteLinkExpiryHours := 24, maxUsersPerPage := 10 }
        7 "C" ChatRole.left ChatRole.member
        { users := [], signals := [], invite_links := [], channel_events := [] }
        4 =
      ({ users := [], signals := [], invite_links := [],
         channel_events :=
          [{ user_id := 7, event_type := "channel_joined", event_date := 4,
             details := "" }] },
       true) := by
  refine ⟨?_, ?_, ?_⟩
  · have h := C6_sync_level_vs_edge.1 ChatRole.member 7
      { users :=
          [{ user_id := 7, username := "u", first_name := "", last_name := "",
             phone_number := "+7", name := "Uri", product_access := "VIP",
             registration_date := 0, is_active := true, channel_member := true,
             last_activity := none }],
        signals := [], invite_links := [],
        channel_events :=
          [{ user_id := 7, event_type := "channel_joined", event_date := 0,
             details := "" }] } 4
    rw [h]
    rfl
  · exact C6_sync_level_vs_edge.2.1 _ 7 "C" ChatRole.member
      ChatRole.administrator _ 4 rfl
  · have h := C6_sync_level_vs_edge.2.2
      { adminUserIds := [1], signalChannelId := "C", channelUsername := "ch",
        inviteLinkExpiryHours := 24, maxUsersPerPage := 10 }
      7 ChatRole.left ChatRole.member
      { users := [], signals := [], invite_links := [], channel_events := [] }
      4 (by decide)
    rw [h]
    rfl

/-- A database in which identity 7 is recorded as a channel member; used to
exhibit the behaviour of the transport-error path. -/
def dbMemberSeven : BotDB :=
  { users :=
      [{ user_id := 7, username := "u", first_name := "", last_name := "",
         phone_number := "+7", name := "Uri", product_access := "VIP",
         registration_date := 0, is_active := true, channel_member := true,
         last_activity := none }],
    signals := [], invite_links := [], channel_events := [] }

/-- C7 counterexample: on a transport error the refresh returns `false` but
performs **no** database write — the user store still records identity 7 as a
member, contradicting the claim that the not-a-member result is written into
the store as on the success path. -/
theorem C7_counterexample :
    (check_channel_membership (MemberQuery.err "boom") 7 dbMemberSeven 0).1 =
      false
    ∧ (check_channel_membership (MemberQuery.err "boom") 7 dbMemberSeven 0).2 =
      dbMemberSeven
    ∧ (get_user (check_channel_membership (MemberQuery.err "boom") 7
        dbMemberSeven 0).2.users 7).map (fun u => u.channel_member) = some true
    ∧ (get_user (check_channel_membership (MemberQuery.err "boom") 7
        dbMemberSeven 0).2.users 7).map (fun u => u.channel_member) ≠
      some false := by decide

/-- C7 (amended): on a transport error the refresh fails closed — it returns
`false` (not-a-member) to its caller instead of raising — but it leaves the
database entirely unchanged: no membership write and no channel event, unlike
the success path. -/
theorem C7_transport_error_fails_closed (e : String) (uid : Int) (db : BotDB)
    (now : Nat) :
    check_channel_membership (MemberQuery.err e) uid db now = (false, db) :=
  rfl

/-! ### Registration-machine trace lemmas -/

lemma pyStrip_length_le (s : String) : (pyStrip s).length ≤ s.length := by
  show (((s.data.dropWhile isPySpace).reverse.dropWhile
      isPySpace).reverse).length ≤ s.data.length
  calc (((s.data.dropWhile isPySpace).reverse.dropWhile
        isPySpace).reverse).length
      = ((s.data.dropWhile isPySpace).reverse.dropWhile isPySpace).length :=
        List.length_reverse _
    _ ≤ (s.data.dropWhile isPySpace).reverse.length :=
        (List.dropWhile_sublist _).length_le
    _ = (s.data.dropWhile isPySpace).length := List.length_reverse _
    _ ≤ s.data.length := (List.dropWhile_sublist _).length_le

/-- Invariant of a registration run: once the machine is at `NAME` or beyond,
the collected phone number was produced by a contact event of the trace, and
once it is at `PRODUCT_ACCESS`, the collected name is the stripped text of a
text event of the trace. -/
def regTraceInv (evts : List Msg) (p : ConvState × UserData) : Prop :=
  ((p.1 = ConvState.name ∨ p.1 = ConvState.productAccess) →
    ∃ q, Msg.contact q ∈ evts ∧ p.2.phone_number = some q)
  ∧ (p.1 = ConvState.productAccess →
    ∃ t, Msg.text t ∈ evts ∧ p.2.name = some (pyStrip t))

lemma regTraceInv_mono {evts evts' : List Msg} {p : ConvState × UserData}
    (hsub : ∀ m ∈ evts, m ∈ evts') (h : regTraceInv evts p) :
    regTraceInv evts' p := by
  obtain ⟨h1, h2⟩ := h
  refine ⟨fun hs => ?_, fun hs => ?_⟩
  · obtain ⟨q, hq, hp⟩ := h1 hs
    exact ⟨q, hsub _ hq, hp⟩
  · obtain ⟨t, ht, hp⟩ := h2 hs
    exact ⟨t, hsub _ ht, hp⟩

lemma regTraceInv_ended (evts : List Msg) (ud : UserData) :
    regTraceInv evts (ConvState.ended, ud) := by
  constructor <;> intro hs <;> simp at hs

lemma regTraceInv_phoneNumber (evts : List Msg) (ud : UserData) :
    regTraceInv evts (ConvState.phoneNumber, ud) := by
  constructor <;> intro hs <;> simp at hs

lemma regTraceInv_step {evts : List Msg} {p : ConvState × UserData} (m : Msg)
    (h : regTraceInv evts p) : regTraceInv (evts ++ [m]) (regStep p m) := by
  obtain ⟨s, ud⟩ := p
  have hmono : ∀ x ∈ evts, x ∈ evts ++ [m] :=
    fun x hx => List.mem_append_left _ hx
  cases s with
  | ended => cases m <;> exact regTraceInv_ended _ ud
  | phoneNumber =>
    cases m with
    | contact q =>
      show regTraceInv _ (ConvState.name, { ud with phone_number := some q })
      refine ⟨fun _ => ⟨q, ?_, rfl⟩, fun hs => by simp at hs⟩
      simp
    | text t =>
      show regTraceInv _
        (if t == cancelButtonText then (ConvState.ended, ud)
         else (ConvState.phoneNumber, ud))
      by_cases hc : (t == cancelButtonText) = true
      · rw [if_pos hc]
        exact regTraceInv_ended _ ud
      · rw [if_neg hc]
        exact regTraceInv_phoneNumber _ ud
    | cancelCmd => exact regTraceInv_ended _ ud
  | name =>
    cases m with
    | contact q => exact regTraceInv_mono hmono h
    | text t =>
      show regTraceInv _
        (if (pyStrip t).length < 2 then (ConvState.name, ud)
         else (ConvState.productAccess, { ud with name := some (pyStrip t) }))
      by_cases hlen : (pyStrip t).length < 2
      · rw [if_pos hlen]
        exact regTraceInv_mono hmono h
      · rw [if_neg hlen]
        refine ⟨fun _ => ?_, fun _ => ⟨t, by simp, rfl⟩⟩
        obtain ⟨q, hq, hp⟩ := h.1 (Or.inl rfl)
        exact ⟨q, hmono _ hq, hp⟩
    | cancelCmd => exact regTraceInv_ended _ ud
  | productAccess =>
    cases m with
    | contact q => exact regTraceInv_mono hmono h
    | text t =>
      show regTraceInv _
        ((if product_tiers.contains t then ConvState.ended
          else ConvState.productAccess), ud)
      by_cases hc : product_tiers.contains t = true
      · rw [if_pos hc]
        exact regTraceInv_ended _ ud
      · rw [if_neg hc]
        exact regTraceInv_mono hmono h
    | cancelCmd => exact regTraceInv_ended _ ud

lemma regRun_inv (evts : List Msg) :
    ∀ (pre : List Msg) (p : ConvState × UserData),
      regTraceInv pre p → regTraceInv (pre ++ evts) (regRun p evts) := by
  induction evts with
  | nil =>
    intro pre p h
    simpa using h
  | cons m tl ih =>
    intro pre p h
    have h2 := ih (pre ++ [m]) (regStep p m) (regTraceInv_step m h)
    have hl : pre ++ m :: tl = (pre ++ [m]) ++ tl := by simp
    rw [hl]
    exact h2

/-! ### Claim theorems: cancellation (C5) and the name-length guard (C8) -/

/-- C5 counterexample: `cancel` for an identity that has shared its phone
returns `ConversationHandler.END` but leaves the partially collected
`phone_number` in `context.user_data` — the data is not discarded, so the
resulting state is not equivalent to never having started. -/
theorem C5_counterexample :
    cancel { UserData.empty with phone_number := some "+100" } =
      (ConvState.ended, { UserData.empty with phone_number := some "+100" })
    ∧ (cancel { UserData.empty with phone_number := some "+100" }).2 ≠
      UserData.empty
    ∧ (cancel { UserData.empty with
        phone_number := some "+100" }).2.phone_number = some "+100" := by
  decide

/-- C5 (amended): a cancellation at any non-complete state ends the
conversation and confirms, but does **not** clear the partially collected
fields from `context.user_data`; nevertheless no stale partial data can
influence a later registration: in every event trace that brings a fresh
conversation from `PHONE_NUMBER` to `PRODUCT_ACCESS` (the state whose handler
persists the profile), the current phone number was set by a contact event of
that trace and the current name by a text event of that trace. -/
theorem C5_cancel_keeps_data_but_cannot_leak :
    (∀ ud : UserData, cancel ud = (ConvState.ended, ud))
    ∧ (∀ (ud : UserData) (evts : List Msg),
        (regRun (ConvState.phoneNumber, ud) evts).1 =
          ConvState.productAccess →
        (∃ p, Msg.contact p ∈ evts ∧
          (regRun (ConvState.phoneNumber, ud) evts).2.phone_number = some p)
        ∧ (∃ t, Msg.text t ∈ evts ∧
          (regRun (ConvState.phoneNumber, ud) evts).2.name =
            some (pyStrip t))) := by
  refine ⟨fun ud => rfl, ?_⟩
  intro ud evts hs
  have h := regRun_inv evts [] (ConvState.phoneNumber, ud)
    (regTraceInv_phoneNumber [] ud)
  rw [List.nil_append] at h
  exact ⟨h.1 (Or.inr hs), h.2 hs⟩

/-- Stale user data left over from an earlier, cancelled registration. -/
def udStale : UserData :=
  { UserData.empty with phone_number := some "+999", name := some "Stale" }

/-- C5 witness: starting from stale user data (phone `+999`, name `Stale`), a
fresh trace sharing contact `+1` and then the name `Ana` reaches
`PRODUCT_ACCESS` with the phone and name coming from that trace. -/
theorem C5_cancel_keeps_data_but_cannot_leak_witness :
    ((∃ p, Msg.contact p ∈ [Msg.contact "+1", Msg.text "Ana"] ∧
        (regRun (ConvState.phoneNumber, udStale)
          [Msg.contact "+1", Msg.text "Ana"]).2.phone_number = some p)
      ∧ (∃ t, Msg.text t ∈ [Msg.contact "+1", Msg.text "Ana"] ∧
        (regRun (ConvState.phoneNumber, udStale)
          [Msg.contact "+1", Msg.text "Ana"]).2.name = some (pyStrip t)))
    ∧ cancel UserData.empty = (ConvState.ended, UserData.empty) :=
  ⟨C5_cancel_keeps_data_but_cannot_leak.2 udStale
    [Msg.contact "+1", Msg.text "Ana"] (by decide),
   C5_cancel_keeps_data_but_cannot_leak.1 UserData.empty⟩

/-- C8 counterexample: the text `"a "` has length 2 (so the claim's
"longer text" branch asserts the name is stored and the machine advances),
but `name_handler` strips it to `"a"` of length 1, stays in `NAME` and stores
nothing. -/
theorem C8_counterexample :
    2 ≤ ("a " : String).length
    ∧ name_handler "a " UserData.empty = (ConvState.name, UserData.empty) := by
  decide

/-- C8 (amended): `name_handler` measures the length of the
whitespace-stripped text: any input whose raw length is < 2 — and more
generally any input whose stripped length is < 2 — leaves the machine in
`NAME` with no name stored; an input whose stripped length is ≥ 2 stores the
stripped text as the name and advances to `PRODUCT_ACCESS`. -/
theorem C8_name_length_guard :
    (∀ (t : String) (ud : UserData), t.length < 2 →
        name_handler t ud = (ConvState.name, ud))
    ∧ (∀ (t : String) (ud : UserData), (pyStrip t).length < 2 →
        name_handler t ud = (ConvState.name, ud))
    ∧ (∀ (t : String) (ud : UserData), 2 ≤ (pyStrip t).length →
        name_handler t ud =
          (ConvState.productAccess,
           { ud with name := some (pyStrip t) })) := by
  refine ⟨?_, ?_, ?_⟩
  · intro t ud h
    unfold name_handler
    rw [if_pos (Nat.lt_of_le_of_lt (pyStrip_length_le t) h)]
  · intro t ud h
    unfold name_handler
    rw [if_pos h]
  · intro t ud h
    unfold name_handler
    rw [if_neg (Nat.not_lt.mpr h)]

/-- C8 witness: the single character `"a"` is rejected and the machine stays
in `NAME`; `" Ana "` is stripped to `"Ana"`, stored, and the machine advances
to `PRODUCT_ACCESS`. -/
theorem C8_name_length_guard_witness :
    name_handler "a" UserData.empty = (ConvState.name, UserData.empty)
    ∧ name_handler " Ana " UserData.empty =
        (ConvState.productAccess,
         { UserData.empty with name := some (pyStrip " Ana ") }) :=
  ⟨C8_name_length_guard.1 "a" UserData.empty (by decide),
   C8_name_length_guard.2.2 " Ana " UserData.empty (by decide)⟩

end ProfitLife
